import Mathlib

/-!
Verification of the skyvern hybrid safety planner and agent-coordination
layer: a shallow embedding of `skyvern/services/hybrid_planner.py`,
`skyvern/forge/sdk/core/agent_message_bus.py` and
`skyvern/forge/sdk/core/multi_agent_swarm.py`, together with theorems about
guard short-circuiting, affordance selection, rejection reasons, the
message-history ring buffer, loop detection, validator approval, agent
lifecycle and coordinator introspection.
-/

namespace Skyvern

/-- Python truthiness of an optional string: `None` and `""` are falsy. -/
def pyTruthyStr : Option String → Bool
  | none => false
  | some s => !(s == "")

/-- Single-quote character, used when embedding Python f-strings. -/
def sq : String := String.mk [Char.ofNat 39]

/-- Modelled from the spec: the action-type enum (`ActionType` in
`skyvern/webeye/actions/action_types.py` is outside the provided sources).
The constructors are the members imported by `hybrid_planner.py`. -/
inductive ActionType where
  | click
  | input_text
  | select_option
  | checkbox
  | wait
  | terminate
  | complete
  | reload_page
  deriving DecidableEq, Repr

/-- The `.value` string of an action type (it is a Python `str` enum). -/
def ActionType.value : ActionType → String
  | .click => "click"
  | .input_text => "input_text"
  | .select_option => "select_option"
  | .checkbox => "checkbox"
  | .wait => "wait"
  | .terminate => "terminate"
  | .complete => "complete"
  | .reload_page => "reload_page"

/-- Modelled from the spec: a candidate action carries at least an
`action_type` and an optional `element_id` (spec section 6, action source; the
`Action` pydantic classes are outside the provided sources, and the planner
reads them only through `action.action_type` and
`getattr(action, "element_id", ...)`). -/
structure Action where
  action_type : ActionType
  element_id : Option String
  deriving DecidableEq, Repr

/-- A Python attribute value as it occurs in a scraped element's attribute
dictionary: either a string or a boolean (the `disabled` attribute may be the
Python constant `True`). -/
inductive AttrVal where
  | str (s : String)
  | bool (b : Bool)
  deriving DecidableEq, Repr

/-- Modelled from the spec: a page element supplies an id, tag name, text and
an attribute map (spec section 6, environment snapshot provider; the
`ScrapedPage` class is outside the provided sources). Keys absent from the
underlying dictionary are `none`. -/
structure PageElement where
  id : Option String
  text : Option String
  tagName : Option String
  attributes : List (String × AttrVal)
  deriving DecidableEq, Repr

/-- Modelled from the spec: the environment snapshot is a read-only view of
page elements (spec section 6). -/
structure ScrapedPage where
  elements : List PageElement
  deriving DecidableEq, Repr

/-- First value bound to `key` in an association list (Python `dict.get`). -/
def lookupAttr (attrs : List (String × AttrVal)) (key : String) : Option AttrVal :=
  match attrs with
  | [] => none
  | (k, v) :: rest => if k = key then some v else lookupAttr rest key

/-- First value bound to `key` in a string-valued association list. -/
def lookupStr (assoc : List (String × String)) (key : String) : Option String :=
  match assoc with
  | [] => none
  | (k, v) :: rest => if k = key then some v else lookupStr rest key

/-- The predicate-type enum of `skyvern/forge/sdk/workflow/models/symbolic.py`
(`SymbolicPredicateType`). -/
inductive SymbolicPredicateType where
  | element_exists
  | element_visible
  | element_enabled
  | url_pattern
  | element_count
  | element_text_contains
  | custom
  deriving DecidableEq, Repr

/-- The constraint-operator enum of `symbolic.py` (`SymbolicConstraintOperator`);
reserved for compound evaluation and unused by leaf evaluation. -/
inductive SymbolicConstraintOperator where
  | and_op
  | or_op
  | not_op
  | implies_op
  deriving DecidableEq, Repr

/-- A Python scalar expected value for a predicate (`expected_value: Any`);
the planner compares it against an element count or a text fragment. -/
inductive PyVal where
  | pyInt (n : Int)
  | pyStr (s : String)
  deriving DecidableEq, Repr

/-- External evaluation oracles: the Python `re` module and the restricted
`eval` used by custom predicates are libraries outside the repository, so the
embedding abstracts them as functions that either return a boolean or fail
(`.error` models `re.error` for an invalid pattern, and any exception thrown
while evaluating a custom expression). -/
structure EvalOracles where
  reMatch : String → String → Except Unit Bool
  evalExpr : String → ScrapedPage → Option String → Except Unit Bool

/-- Embeds `PlannerPredicate` of `hybrid_planner.py`: a predicate evaluated against
the current page state. -/
structure PlannerPredicate where
  predicate_type : SymbolicPredicateType
  target : Option String := none
  expected_value : Option PyVal := none
  operator : SymbolicConstraintOperator := .and_op
  metadata : List (String × String) := []
  deriving DecidableEq, Repr

/-- The guard `if not scraped_page or not scraped_page.elements: return False`
shared by every element predicate branch of `PlannerPredicate.evaluate`. -/
def pageGuard (scraped_page : Option ScrapedPage) (k : ScrapedPage → Bool) : Bool :=
  match scraped_page with
  | none => false
  | some page => if page.elements.isEmpty then false else k page

/-- Substring test, embedding the Python `in` operator on strings. -/
def strContains (hay needle : String) : Bool :=
  decide (needle.toList <:+: hay.toList)

/-- The string attribute read `attributes.get(key, "")`; a boolean-valued
attribute in that slot would raise `AttributeError` in the source when a
string method is applied, a case outside the modelled input space (no claim
exercises it), rendered here as the empty string. -/
def attrStrD (attrs : List (String × AttrVal)) (key : String) : String :=
  match lookupAttr attrs key with
  | some (.str s) => s
  | some (.bool _) => ""
  | none => ""

/-- Embeds `PlannerPredicate.evaluate` of `hybrid_planner.py`, branch for branch:
`url_pattern` matches the target regex against the url and fails closed on
`re.error`; every element predicate first requires a non-empty snapshot;
`custom` evaluates the metadata expression and fails closed on any
exception. -/
def PlannerPredicate.evaluate (o : EvalOracles) (p : PlannerPredicate)
    (scraped_page : Option ScrapedPage) (current_url : Option String) : Bool :=
  match p.predicate_type with
  | .url_pattern =>
    if !pyTruthyStr current_url || !pyTruthyStr p.target then false
    else
      match p.target, current_url with
      | some t, some u =>
        match o.reMatch t u with
        | .ok b => b
        | .error _ => false
      | _, _ => false
  | .element_exists =>
    pageGuard scraped_page fun page =>
      page.elements.any fun e => e.id == p.target
  | .element_visible =>
    pageGuard scraped_page fun page =>
      match page.elements.find? (fun e => e.id == p.target) with
      | some e =>
        let style_norm := (attrStrD e.attributes "style").replace " " ""
        !(strContains style_norm "display:none" || strContains style_norm "visibility:hidden")
      | none => false
  | .element_enabled =>
    pageGuard scraped_page fun page =>
      match page.elements.find? (fun e => e.id == p.target) with
      | some e =>
        match lookupAttr e.attributes "disabled" with
        | some v => !(v == .bool true || v == .str "true" || v == .str "disabled")
        | none => true
      | none => false
  | .element_count =>
    pageGuard scraped_page fun page =>
      let count := (page.elements.filter (fun e => e.id == p.target)).length
      match p.expected_value with
      | some (.pyInt n) => (count : Int) == n
      | some (.pyStr _) => false
      | none => count > 0
  | .element_text_contains =>
    pageGuard scraped_page fun page =>
      match page.elements.find? (fun e => e.id == p.target) with
      | some e =>
        let text := (e.text.getD "")
        let expected :=
          match p.expected_value with
          | some (.pyStr s) => s
          | some (.pyInt _) => ""
          | none => ""
        strContains text expected
      | none => false
  | .custom =>
    pageGuard scraped_page fun page =>
      match lookupStr p.metadata "expression" with
      | none => false
      | some expr =>
        if expr = "" then false
        else
          match o.evalExpr expr page current_url with
          | .ok b => b
          | .error _ => false

/-- Embeds `ActionAffordance`/`PlannerAffordance` of `hybrid_planner.py`: a possible
action description with pre and post conditions. Metadata values are read only
through `metadata.get("failure_reason")`, so the map is string-valued here. -/
structure PlannerAffordance where
  action_type : ActionType
  element_id : Option String := none
  preconditions : List PlannerPredicate := []
  postconditions : List PlannerPredicate := []
  priority : Int := 0
  metadata : List (String × String) := []
  deriving DecidableEq, Repr

/-- Embeds `PlannerAffordance.can_execute`: all preconditions hold. -/
def PlannerAffordance.can_execute (o : EvalOracles) (af : PlannerAffordance)
    (scraped_page : Option ScrapedPage) (current_url : Option String) : Bool :=
  af.preconditions.all fun p => p.evaluate o scraped_page current_url

/-- Embeds `GuardCondition`/`PlannerGuard` of `hybrid_planner.py`: a guard preventing
execution of certain action types. -/
structure PlannerGuard where
  name : String
  predicates : List PlannerPredicate := []
  action_types_blocked : List ActionType := []
  message : Option String := none
  deriving DecidableEq, Repr

/-- Embeds `PlannerGuard.is_active`: all guard predicates hold. -/
def PlannerGuard.is_active (o : EvalOracles) (g : PlannerGuard)
    (scraped_page : Option ScrapedPage) (current_url : Option String) : Bool :=
  g.predicates.all fun p => p.evaluate o scraped_page current_url

/-- Embeds `PlannerGuard.blocks_action`: the action's type is among the blocked
types. -/
def PlannerGuard.blocks_action (g : PlannerGuard) (a : Action) : Bool :=
  g.action_types_blocked.any fun blocked => a.action_type == blocked

/-- The rejection reason produced when a guard fires:
`guard.message or f"Guard \x7bguard.name\x7d blocked action"` (Python `or`
falls through on `None` and on the empty string). -/
def guardRejectionMessage (g : PlannerGuard) : String :=
  match g.message with
  | some m => if m = "" then "Guard " ++ sq ++ g.name ++ sq ++ " blocked action" else m
  | none => "Guard " ++ sq ++ g.name ++ sq ++ " blocked action"

/-- The guard loop of `validate_and_filter_actions`: the first guard that is
active and blocks the action determines the rejection reason (`break`). -/
def guardRejection (o : EvalOracles) (guards : List PlannerGuard)
    (scraped_page : Option ScrapedPage) (current_url : Option String) (a : Action) :
    Option String :=
  match guards with
  | [] => none
  | g :: rest =>
    if g.is_active o scraped_page current_url && g.blocks_action a then
      some (guardRejectionMessage g)
    else guardRejection o rest scraped_page current_url a

/-- The affordance-match filter of `validate_and_filter_actions`: same action
type, and the affordance's `element_id` unset or equal to the action's. -/
def matchingAffordances (affordances : List PlannerAffordance) (a : Action) :
    List PlannerAffordance :=
  affordances.filter fun af =>
    af.action_type == a.action_type &&
      (af.element_id == none || af.element_id == a.element_id)

/-- Stable insertion for a descending sort by `priority`; an element keeps its
place relative to equal-priority elements that came before it. -/
def insertByPriorityDesc (a : PlannerAffordance) :
    List PlannerAffordance → List PlannerAffordance
  | [] => [a]
  | b :: bs =>
    if a.priority < b.priority then b :: insertByPriorityDesc a bs
    else a :: b :: bs

/-- Embeds `matching_affordances.sort(key=lambda aff: aff.priority, reverse=True)`:
Python's sort is stable, so this is a stable descending sort by priority. -/
def sortByPriorityDesc : List PlannerAffordance → List PlannerAffordance
  | [] => []
  | a :: rest => insertByPriorityDesc a (sortByPriorityDesc rest)

/-- The rejection reason recorded when the selected affordance's preconditions
fail: `metadata.get("failure_reason") if metadata else
"Affordance preconditions not met"`. With a non-empty metadata map that lacks
the `failure_reason` key this is `none` (the Python value `None`). -/
def affordanceFailureReason (af : PlannerAffordance) : Option String :=
  if af.metadata = [] then some "Affordance preconditions not met"
  else lookupStr af.metadata "failure_reason"

/-- The five exit paths of the per-action body of
`validate_and_filter_actions`. Affordance preconditions are evaluated only on
the `acceptedByAffordance` and `rejectedByAffordance` paths. -/
inductive ActionDecision where
  | rejectedByGuard (reason : String)
  | acceptedNoAffordances
  | acceptedByAffordance
  | rejectedByAffordance (reason : Option String)
  | acceptedNoMatch (warning : String)
  deriving DecidableEq, Repr

/-- The `HybridPlanner` instance state. -/
structure HybridPlanner where
  predicates : List PlannerPredicate := []
  affordances : List PlannerAffordance := []
  guards : List PlannerGuard := []
  loop_detection_window : Int := 5
  action_history : List (String × ActionType) := []
  fallback_actions : List Action := []
  deriving DecidableEq, Repr

/-- Embeds `HybridPlanner.__init__`. -/
def HybridPlanner.init : HybridPlanner := {}

/-- Embeds `HybridPlanner.register_affordance`. -/
def HybridPlanner.register_affordance (p : HybridPlanner) (af : PlannerAffordance) :
    HybridPlanner :=
  { p with affordances := p.affordances ++ [af] }

/-- Embeds `HybridPlanner.register_guard`. -/
def HybridPlanner.register_guard (p : HybridPlanner) (g : PlannerGuard) : HybridPlanner :=
  { p with guards := p.guards ++ [g] }

/-- Embeds `HybridPlanner.clear`: empties every registry, the fallback list and the
action history (the loop-detection window is kept). -/
def HybridPlanner.clear (p : HybridPlanner) : HybridPlanner :=
  { p with predicates := [], affordances := [], guards := [],
           fallback_actions := [], action_history := [] }

/-- The body of the `for action in actions` loop of
`validate_and_filter_actions`: guards first (with short-circuit rejection),
then — only if any affordances are registered — selection of the best matching
affordance and evaluation of its preconditions, with a permissive warning when
nothing matches. -/
def processAction (o : EvalOracles) (p : HybridPlanner)
    (scraped_page : Option ScrapedPage) (current_url : Option String)
    (a : Action) : ActionDecision :=
  match guardRejection o p.guards scraped_page current_url a with
  | some reason => .rejectedByGuard reason
  | none =>
    match p.affordances with
    | [] => .acceptedNoAffordances
    | _ :: _ =>
      match sortByPriorityDesc (matchingAffordances p.affordances a) with
      | selected :: _ =>
        if selected.can_execute o scraped_page current_url then .acceptedByAffordance
        else .rejectedByAffordance (affordanceFailureReason selected)
      | [] =>
        .acceptedNoMatch ("No affordance registered for action " ++ a.action_type.value)

/-- The accumulation of `filtered_actions`, `rejected_actions` and `warnings`
over the action loop, in input order. -/
def runFilter (o : EvalOracles) (p : HybridPlanner)
    (scraped_page : Option ScrapedPage) (current_url : Option String) :
    List Action → List Action × List (Action × Option String) × List String
  | [] => ([], [], [])
  | a :: rest =>
    let acc := runFilter o p scraped_page current_url rest
    match processAction o p scraped_page current_url a with
    | .rejectedByGuard reason => (acc.1, (a, some reason) :: acc.2.1, acc.2.2)
    | .acceptedNoAffordances => (a :: acc.1, acc.2.1, acc.2.2)
    | .acceptedByAffordance => (a :: acc.1, acc.2.1, acc.2.2)
    | .rejectedByAffordance reason => (acc.1, (a, reason) :: acc.2.1, acc.2.2)
    | .acceptedNoMatch warning => (a :: acc.1, acc.2.1, warning :: acc.2.2)

/-- The key appended to the action history for an accepted action:
`getattr(action, "element_id", "") or "global"` (`None` and `""` both fall
through to `"global"`). -/
def actionKey (a : Action) : String × ActionType :=
  (match a.element_id with
   | some s => if s = "" then "global" else s
   | none => "global",
   a.action_type)

/-- The loop warning text
`f"Potential loop detected: repeated sequence of \x7bwindow\x7d actions"`. -/
def loopWarningMessage (window : Int) : String :=
  "Potential loop detected: repeated sequence of " ++ toString window ++ " actions"

/-- Embeds `HybridPlanner._detect_loops`: appends the keys of the accepted actions to
the rolling history, truncates the history to the last `2 × window` entries,
and warns when the history holds `2 × window` entries whose recent half equals
the preceding half. The slice `[-2w:-w]` is rendered as drop-then-take, which
agrees with Python on the only reachable case `len >= 2w`. -/
def HybridPlanner.detectLoops (p : HybridPlanner) (actions : List Action) :
    HybridPlanner × Option String :=
  if p.loop_detection_window ≤ 0 then (p, none)
  else
    let w := p.loop_detection_window.toNat
    let hist := p.action_history ++ actions.map actionKey
    let max_history := 2 * w
    let hist := if hist.length > max_history then hist.drop (hist.length - max_history) else hist
    let p' := { p with action_history := hist }
    if hist.length < 2 * w then (p', none)
    else
      let recent := hist.drop (hist.length - w)
      let previous := (hist.drop (hist.length - 2 * w)).take w
      if recent = previous then (p', some (loopWarningMessage p.loop_detection_window))
      else (p', none)

/-- Embeds `PlanValidationResult` of `hybrid_planner.py`. The rejection reason is
`Option String` because the source can append the Python value `None` as a
reason (despite the `list[tuple[Action, str]]` annotation); `audit_data` is
logging-only and not modelled. -/
structure PlanValidationResult where
  valid : Bool
  filtered_actions : List Action
  rejected_actions : List (Action × Option String)
  warnings : List String
  deriving DecidableEq, Repr

/-- Embeds `HybridPlanner.validate_and_filter_actions`: filters the actions through
guards and affordances, runs loop detection over the accepted list (appending
its warning last), and reports validity as non-emptiness of the accepted
list. Returns the mutated planner (the action history advances) with the
result. -/
def HybridPlanner.validate_and_filter_actions (o : EvalOracles) (p : HybridPlanner)
    (actions : List Action) (scraped_page : Option ScrapedPage)
    (current_url : Option String) : HybridPlanner × PlanValidationResult :=
  let acc := runFilter o p scraped_page current_url actions
  let filtered := acc.1
  let rejected := acc.2.1
  let warnings := acc.2.2
  let step := p.detectLoops filtered
  let warnings :=
    match step.2 with
    | some lw => warnings ++ [lw]
    | none => warnings
  (step.1,
   { valid := !filtered.isEmpty,
     filtered_actions := filtered,
     rejected_actions := rejected,
     warnings := warnings })

/-- Embeds `HybridPlanner.reconcile_with_fallback`: validated actions if any survive,
else the caller fallback, else the configured fallback, else nothing. -/
def HybridPlanner.reconcile_with_fallback (p : HybridPlanner)
    (validation_result : PlanValidationResult)
    (fallback_actions : Option (List Action)) : List Action :=
  if validation_result.valid && !validation_result.filtered_actions.isEmpty then
    validation_result.filtered_actions
  else
    match fallback_actions with
    | some fb => if fb.isEmpty then
        (if p.fallback_actions.isEmpty then [] else p.fallback_actions)
      else fb
    | none => if p.fallback_actions.isEmpty then [] else p.fallback_actions

/-! ### Lemmas about guard evaluation and affordance selection -/

lemma guardRejection_of_split (o : EvalOracles) (scraped_page : Option ScrapedPage)
    (current_url : Option String) (a : Action)
    (gs₁ gs₂ : List PlannerGuard) (g : PlannerGuard)
    (hactive : g.is_active o scraped_page current_url = true)
    (hblocks : g.blocks_action a = true)
    (hfirst : ∀ g' ∈ gs₁,
      ¬(g'.is_active o scraped_page current_url = true ∧ g'.blocks_action a = true)) :
    guardRejection o (gs₁ ++ g :: gs₂) scraped_page current_url a
      = some (guardRejectionMessage g) := by
  induction gs₁ with
  | nil => simp [guardRejection, hactive, hblocks]
  | cons g' rest ih =>
    have h' := hfirst g' (by simp)
    have hfalse : (g'.is_active o scraped_page current_url && g'.blocks_action a) = false := by
      cases hA : g'.is_active o scraped_page current_url <;>
        cases hB : g'.blocks_action a <;> simp_all
    simpa [guardRejection, hfalse] using ih (fun x hx => hfirst x (by simp [hx]))

lemma runFilter_rejected_mem (o : EvalOracles) (p : HybridPlanner)
    (scraped_page : Option ScrapedPage) (current_url : Option String)
    (a : Action) (r : String) (actions : List Action)
    (hmem : a ∈ actions)
    (hdec : processAction o p scraped_page current_url a = .rejectedByGuard r) :
    (a, some r) ∈ (runFilter o p scraped_page current_url actions).2.1 := by
  induction actions with
  | nil => cases hmem
  | cons b rest ih =>
    rcases List.mem_cons.mp hmem with hb | hrest
    · subst hb
      simp only [runFilter, hdec]
      exact List.mem_cons_self _ _
    · have hrec := ih hrest
      simp only [runFilter]
      cases hd : processAction o p scraped_page current_url b
      case rejectedByGuard reason => exact List.mem_cons_of_mem _ hrec
      case acceptedNoAffordances => exact hrec
      case acceptedByAffordance => exact hrec
      case rejectedByAffordance reason => exact List.mem_cons_of_mem _ hrec
      case acceptedNoMatch warning => exact hrec

lemma insertByPriorityDesc_ne_nil (a : PlannerAffordance) (l : List PlannerAffordance) :
    insertByPriorityDesc a l ≠ [] := by
  cases l with
  | nil => simp [insertByPriorityDesc]
  | cons b bs =>
    simp only [insertByPriorityDesc]
    split <;> simp

/-- The first element of maximal priority, as a fold; equals the head of the
stable descending sort. -/
def firstMaxPriority : List PlannerAffordance → Option PlannerAffordance
  | [] => none
  | a :: rest =>
    match firstMaxPriority rest with
    | none => some a
    | some b => if a.priority < b.priority then some b else some a

lemma firstMaxPriority_eq_none_iff (l : List PlannerAffordance) :
    firstMaxPriority l = none ↔ l = [] := by
  cases l with
  | nil => simp [firstMaxPriority]
  | cons a rest =>
    simp only [firstMaxPriority]
    cases firstMaxPriority rest
    · simp
    · simp only [and_iff_left]
      split <;> simp

lemma head?_sortByPriorityDesc (l : List PlannerAffordance) :
    (sortByPriorityDesc l).head? = firstMaxPriority l := by
  induction l with
  | nil => rfl
  | cons a rest ih =>
    simp only [sortByPriorityDesc, firstMaxPriority]
    cases hs : sortByPriorityDesc rest with
    | nil =>
      have : firstMaxPriority rest = none := by rw [← ih, hs]; rfl
      simp [insertByPriorityDesc, this]
    | cons b bs =>
      have hb : firstMaxPriority rest = some b := by rw [← ih, hs]; rfl
      simp only [insertByPriorityDesc, hb]
      split <;> simp

lemma firstMaxPriority_spec (l : List PlannerAffordance) (a : PlannerAffordance)
    (h : firstMaxPriority l = some a) :
    ∃ l₁ l₂, l = l₁ ++ a :: l₂ ∧
      (∀ b ∈ l₁, b.priority < a.priority) ∧
      (∀ b ∈ l, b.priority ≤ a.priority) := by
  induction l generalizing a with
  | nil => simp [firstMaxPriority] at h
  | cons x rest ih =>
    simp only [firstMaxPriority] at h
    cases hr : firstMaxPriority rest with
    | none =>
      have hrest : rest = [] := (firstMaxPriority_eq_none_iff rest).mp hr
      rw [hr] at h
      simp only [Option.some.injEq] at h
      subst h
      exact ⟨[], rest, by simp, by simp, by simp [hrest]⟩
    | some b =>
      rw [hr] at h
      have h2 : (if x.priority < b.priority then some b else some x) = some a := h
      obtain ⟨r₁, r₂, hsplit, hfront, hbound⟩ := ih b hr
      by_cases hlt : x.priority < b.priority
      · rw [if_pos hlt] at h2
        simp only [Option.some.injEq] at h2
        subst h2
        refine ⟨x :: r₁, r₂, by simp [hsplit], ?_, ?_⟩
        · intro c hc
          rcases List.mem_cons.mp hc with hcx | hcr
          · subst hcx; exact hlt
          · exact hfront c hcr
        · intro c hc
          rcases List.mem_cons.mp hc with hcx | hcr
          · subst hcx; exact le_of_lt hlt
          · exact hbound c hcr
      · rw [if_neg hlt] at h2
        simp only [Option.some.injEq] at h2
        subst h2
        refine ⟨[], rest, by simp, by simp, ?_⟩
        intro c hc
        rcases List.mem_cons.mp hc with hcx | hcr
        · subst hcx; exact le_refl _
        · exact le_trans (hbound c hcr) (le_of_not_lt hlt)

/-! ### Theorems for claims about the action filter -/

/-- C1: in `validate_and_filter_actions`, if some registered guard is active
and blocks the action's type, the action is rejected immediately with the
first such guard's message: the decision is `rejectedByGuard` for every
affordance registry (so no affordance precondition is evaluated), and the
action lands in `rejected_actions` with exactly that guard's message. -/
theorem guard_short_circuit_rejects_action
    (o : EvalOracles) (p : HybridPlanner) (scraped_page : Option ScrapedPage)
    (current_url : Option String) (a : Action)
    (gs₁ gs₂ : List PlannerGuard) (g : PlannerGuard)
    (hsplit : p.guards = gs₁ ++ g :: gs₂)
    (hactive : g.is_active o scraped_page current_url = true)
    (hblocks : g.blocks_action a = true)
    (hfirst : ∀ g' ∈ gs₁,
      ¬(g'.is_active o scraped_page current_url = true ∧ g'.blocks_action a = true)) :
    (∀ affs : List PlannerAffordance,
      processAction o { p with affordances := affs } scraped_page current_url a
        = .rejectedByGuard (guardRejectionMessage g)) ∧
    (∀ actions : List Action, a ∈ actions →
      (a, some (guardRejectionMessage g)) ∈
        (HybridPlanner.validate_and_filter_actions o p actions scraped_page
          current_url).2.rejected_actions) := by
  have hguard : guardRejection o p.guards scraped_page current_url a
      = some (guardRejectionMessage g) := by
    rw [hsplit]
    exact guardRejection_of_split o scraped_page current_url a gs₁ gs₂ g hactive hblocks hfirst
  constructor
  · intro affs
    simp only [processAction]
    have : guardRejection o ({ p with affordances := affs } : HybridPlanner).guards
        scraped_page current_url a = some (guardRejectionMessage g) := hguard
    rw [this]
  · intro actions hmem
    have hdec : processAction o p scraped_page current_url a
        = .rejectedByGuard (guardRejectionMessage g) := by
      simp only [processAction, hguard]
    have := runFilter_rejected_mem o p scraped_page current_url a
      (guardRejectionMessage g) actions hmem hdec
    simpa [HybridPlanner.validate_and_filter_actions] using this

/-- C2: when affordances are registered and at least one matches the action
(and no guard rejects it), exactly one affordance decides the action: a
matching affordance of maximal priority that is preceded, among the matches
in registration order, only by strictly lower priorities; the decision is
exactly the evaluation of that affordance's preconditions. -/
theorem affordance_selection_highest_priority_first_registered
    (o : EvalOracles) (p : HybridPlanner) (scraped_page : Option ScrapedPage)
    (current_url : Option String) (a : Action)
    (hguard : guardRejection o p.guards scraped_page current_url a = none)
    (hmatch : matchingAffordances p.affordances a ≠ []) :
    ∃ sel l₁ l₂,
      matchingAffordances p.affordances a = l₁ ++ sel :: l₂ ∧
      (∀ b ∈ l₁, b.priority < sel.priority) ∧
      (∀ b ∈ matchingAffordances p.affordances a, b.priority ≤ sel.priority) ∧
      processAction o p scraped_page current_url a =
        (if sel.can_execute o scraped_page current_url then .acceptedByAffordance
         else .rejectedByAffordance (affordanceFailureReason sel)) := by
  have haff : p.affordances ≠ [] := by
    intro hnil
    apply hmatch
    simp [matchingAffordances, hnil]
  cases hsort : sortByPriorityDesc (matchingAffordances p.affordances a) with
  | nil =>
    exfalso
    apply hmatch
    cases hm : matchingAffordances p.affordances a with
    | nil => rfl
    | cons x xs =>
      rw [hm] at hsort
      exact absurd hsort (insertByPriorityDesc_ne_nil x (sortByPriorityDesc xs))
  | cons sel tail =>
    have hhead : firstMaxPriority (matchingAffordances p.affordances a) = some sel := by
      rw [← head?_sortByPriorityDesc, hsort]; rfl
    obtain ⟨l₁, l₂, hsp, hfront, hbound⟩ :=
      firstMaxPriority_spec (matchingAffordances p.affordances a) sel hhead
    refine ⟨sel, l₁, l₂, hsp, hfront, hbound, ?_⟩
    obtain ⟨af, afs, haffs⟩ : ∃ af afs, p.affordances = af :: afs := by
      cases h : p.affordances with
      | nil => exact absurd h haff
      | cons af afs => exact ⟨af, afs, rfl⟩
    rw [haffs] at hsort
    simp only [processAction, hguard, haffs, hsort]

/-- Helper oracles whose external evaluations always return false. -/
def oracleFalse : EvalOracles := ⟨fun _ _ => .ok false, fun _ _ _ => .ok false⟩

/-- An affordance with non-empty metadata that lacks the `failure_reason` key
and a failing precondition. -/
def c3Affordance : PlannerAffordance :=
  { action_type := .click, element_id := none,
    preconditions := [{ predicate_type := .element_exists, target := some "missing" }],
    priority := 0, metadata := [("note", "no failure reason provided")] }

/-- A planner with exactly the affordance above registered. -/
def c3Planner : HybridPlanner := { HybridPlanner.init with affordances := [c3Affordance] }

/-- A click action matched by the affordance above. -/
def c3Action : Action := ⟨.click, some "b1"⟩

/-- C3: evaluation of the code at the failing input. When the selected
affordance's metadata map is non-empty but has no `failure_reason` key and its
preconditions fail, `validate_and_filter_actions` records the Python value
`None` as the rejection reason — the reason is absent, contradicting both the
claim and the declared type `list[tuple[Action, str]]` of
`PlanValidationResult.rejected_actions`. -/
theorem rejection_reason_absent_without_failure_reason_key :
    (HybridPlanner.validate_and_filter_actions oracleFalse c3Planner [c3Action]
      none none).2.rejected_actions = [(c3Action, none)] := by
  rfl

/-- A guard with no predicates (hence active) that blocks nothing. -/
def c1Guard0 : PlannerGuard := { name := "idle" }

/-- A guard with no predicates (hence active) that blocks terminate actions. -/
def c1Guard : PlannerGuard :=
  { name := "no-terminate", action_types_blocked := [.terminate],
    message := some "terminate blocked" }

/-- A planner registering the idle guard first, then the blocking guard. -/
def c1Planner : HybridPlanner :=
  { HybridPlanner.init with guards := [c1Guard0, c1Guard] }

/-- A terminate action, blocked by `c1Guard`. -/
def c1Action : Action := ⟨.terminate, none⟩

/-- Witness for C1: with the idle guard registered before the blocking guard,
the terminate action is rejected with the blocking guard's message whatever
affordances are registered, and lands in the rejected list. -/
theorem guard_short_circuit_rejects_action_witness :
    (∀ affs : List PlannerAffordance,
      processAction oracleFalse { c1Planner with affordances := affs } none none c1Action
        = .rejectedByGuard (guardRejectionMessage c1Guard)) ∧
    (∀ actions : List Action, c1Action ∈ actions →
      (c1Action, some (guardRejectionMessage c1Guard)) ∈
        (HybridPlanner.validate_and_filter_actions oracleFalse c1Planner actions
          none none).2.rejected_actions) :=
  guard_short_circuit_rejects_action oracleFalse c1Planner none none c1Action
    [c1Guard0] [] c1Guard rfl rfl rfl (by decide)

/-- The spec's tie-break pair: a priority-5 affordance registered first. -/
def c2LowAffordance : PlannerAffordance :=
  { action_type := .click, element_id := some "btn", priority := 5 }

/-- The spec's tie-break pair: a priority-10 affordance registered second. -/
def c2HighAffordance : PlannerAffordance :=
  { action_type := .click, element_id := some "btn", priority := 10 }

/-- A planner registering both affordances of the tie-break pair. -/
def c2Planner : HybridPlanner :=
  { HybridPlanner.init with affordances := [c2LowAffordance, c2HighAffordance] }

/-- A click action on the element both affordances scope to. -/
def c2Action : Action := ⟨.click, some "btn"⟩

/-- Witness for C2: on the two-affordance planner the theorem applies, so one
matching affordance of maximal priority decides the click action. -/
theorem affordance_selection_witness :
    ∃ sel l₁ l₂,
      matchingAffordances c2Planner.affordances c2Action = l₁ ++ sel :: l₂ ∧
      (∀ b ∈ l₁, b.priority < sel.priority) ∧
      (∀ b ∈ matchingAffordances c2Planner.affordances c2Action,
        b.priority ≤ sel.priority) ∧
      processAction oracleFalse c2Planner none none c2Action =
        (if sel.can_execute oracleFalse none none then ActionDecision.acceptedByAffordance
         else ActionDecision.rejectedByAffordance (affordanceFailureReason sel)) :=
  affordance_selection_highest_priority_first_registered oracleFalse c2Planner
    none none c2Action rfl (by decide)

/-- C8: predicate evaluation fails closed. A `url_pattern` predicate whose
target pattern is rejected by the regex engine evaluates to `false` for every
snapshot and url, and a `custom` predicate whose expression evaluation throws
evaluates to `false` for every snapshot and url; in both cases `evaluate`
returns (it is a total boolean function) rather than propagating the error. -/
theorem predicate_evaluation_fails_closed (o : EvalOracles) :
    (∀ (p : PlannerPredicate) (t : String),
        p.predicate_type = .url_pattern → p.target = some t →
        (∀ u, o.reMatch t u = .error ()) →
        ∀ scraped_page current_url, p.evaluate o scraped_page current_url = false) ∧
    (∀ p : PlannerPredicate,
        p.predicate_type = .custom →
        (∀ expr page url, lookupStr p.metadata "expression" = some expr →
            o.evalExpr expr page url = .error ()) →
        ∀ scraped_page current_url, p.evaluate o scraped_page current_url = false) := by
  constructor
  · intro p t htype htarget hbad scraped_page current_url
    simp only [PlannerPredicate.evaluate, htype, htarget]
    cases current_url with
    | none => simp [pyTruthyStr]
    | some u =>
      by_cases hu : u = ""
      · simp [pyTruthyStr, hu]
      · by_cases ht : t = ""
        · simp [pyTruthyStr, ht]
        · simp only [pyTruthyStr, hu, ht]
          simp [hbad u, ht, hu]
  · intro p htype hbad scraped_page current_url
    simp only [PlannerPredicate.evaluate, htype]
    cases scraped_page with
    | none => simp [pageGuard]
    | some page =>
      simp only [pageGuard]
      by_cases hempty : page.elements.isEmpty
      · simp [hempty]
      · simp only [hempty, if_false, Bool.false_eq_true]
        cases hexpr : lookupStr p.metadata "expression" with
        | none => simp
        | some expr =>
          by_cases he : expr = ""
          · simp [he]
          · simp [he, hbad expr page current_url hexpr]

/-- Oracles whose external evaluations always fail, modelling an invalid
regular expression and a custom expression that always throws. -/
def oracleError : EvalOracles := ⟨fun _ _ => .error (), fun _ _ _ => .error ()⟩

/-- A `url_pattern` predicate with an unbalanced-parenthesis pattern. -/
def c8UrlPredicate : PlannerPredicate :=
  { predicate_type := .url_pattern, target := some "(" }

/-- A `custom` predicate whose expression divides by zero. -/
def c8CustomPredicate : PlannerPredicate :=
  { predicate_type := .custom, metadata := [("expression", "1/0")] }

/-- A one-element page used to exercise the failing predicates. -/
def c8Page : ScrapedPage :=
  ⟨[{ id := some "submit_btn", text := some "Submit", tagName := some "button",
      attributes := [] }]⟩

/-- Witness for C8: both failing predicates evaluate to false on a concrete
snapshot and url. -/
theorem predicate_evaluation_fails_closed_witness :
    c8UrlPredicate.evaluate oracleError (some c8Page) (some "https://example.com/form")
      = false ∧
    c8CustomPredicate.evaluate oracleError (some c8Page) (some "https://example.com/form")
      = false :=
  ⟨(predicate_evaluation_fails_closed oracleError).1 c8UrlPredicate "(" rfl rfl
      (fun _ => rfl) (some c8Page) (some "https://example.com/form"),
   (predicate_evaluation_fails_closed oracleError).2 c8CustomPredicate rfl
      (fun _ _ _ _ => rfl) (some c8Page) (some "https://example.com/form")⟩

/-! ### Loop detection -/

/-- The action history after `_detect_loops`: the appended history truncated
to its last `2 × window` entries. -/
def truncatedHistory (p : HybridPlanner) (actions : List Action) :
    List (String × ActionType) :=
  (p.action_history ++ actions.map actionKey).drop
    ((p.action_history ++ actions.map actionKey).length - 2 * p.loop_detection_window.toNat)

lemma loopIfSpec {α γ : Type} [DecidableEq α] (nh : List α) (W : Nat)
    (f : List α → γ) (msg : String) :
    (if (if nh.length > 2 * W then nh.drop (nh.length - 2 * W) else nh).length < 2 * W
     then (f (if nh.length > 2 * W then nh.drop (nh.length - 2 * W) else nh),
           (none : Option String))
     else
       if (if nh.length > 2 * W then nh.drop (nh.length - 2 * W) else nh).drop
            ((if nh.length > 2 * W then nh.drop (nh.length - 2 * W) else nh).length - W)
          = ((if nh.length > 2 * W then nh.drop (nh.length - 2 * W) else nh).drop
              ((if nh.length > 2 * W then nh.drop (nh.length - 2 * W) else nh).length
                - 2 * W)).take W
       then (f (if nh.length > 2 * W then nh.drop (nh.length - 2 * W) else nh), some msg)
       else (f (if nh.length > 2 * W then nh.drop (nh.length - 2 * W) else nh), none))
    = (f (nh.drop (nh.length - 2 * W)),
       if 2 * W ≤ (nh.drop (nh.length - 2 * W)).length ∧
          (nh.drop (nh.length - 2 * W)).drop W = (nh.drop (nh.length - 2 * W)).take W
       then some msg else none) := by
  by_cases hgt : nh.length > 2 * W
  · simp only [if_pos hgt]
    have hlen : (nh.drop (nh.length - 2 * W)).length = 2 * W := by
      rw [List.length_drop]; omega
    rw [if_neg (by omega : ¬ (nh.drop (nh.length - 2 * W)).length < 2 * W)]
    rw [show (nh.drop (nh.length - 2 * W)).length - W = W by omega]
    rw [show (nh.drop (nh.length - 2 * W)).length - 2 * W = 0 by omega]
    rw [List.drop_zero]
    by_cases hc : (nh.drop (nh.length - 2 * W)).drop W = (nh.drop (nh.length - 2 * W)).take W
    · rw [if_pos hc, if_pos ⟨by omega, hc⟩]
    · rw [if_neg hc, if_neg (fun h => hc h.2)]
  · simp only [if_neg hgt]
    have h0 : nh.length - 2 * W = 0 := by omega
    rw [h0, List.drop_zero]
    by_cases hlt : nh.length < 2 * W
    · rw [if_pos hlt, if_neg (fun h => absurd h.1 (by omega))]
    · rw [if_neg hlt]
      rw [show nh.length - W = W by omega]
      by_cases hc : nh.drop W = nh.take W
      · rw [if_pos hc, if_pos ⟨by omega, hc⟩]
      · rw [if_neg hc, if_neg (fun h => hc h.2)]

lemma detectLoops_spec (p : HybridPlanner) (actions : List Action)
    (hw : 0 < p.loop_detection_window) :
    p.detectLoops actions =
      ({ p with action_history := truncatedHistory p actions },
       if 2 * p.loop_detection_window.toNat ≤ (truncatedHistory p actions).length ∧
          (truncatedHistory p actions).drop p.loop_detection_window.toNat
            = (truncatedHistory p actions).take p.loop_detection_window.toNat
       then some (loopWarningMessage p.loop_detection_window) else none) := by
  have hw0 : ¬ p.loop_detection_window ≤ 0 := by omega
  simp only [HybridPlanner.detectLoops, truncatedHistory, hw0, if_false]
  exact loopIfSpec (p.action_history ++ actions.map actionKey)
    p.loop_detection_window.toNat
    (fun h => { p with action_history := h })
    (loopWarningMessage p.loop_detection_window)

lemma runFilter_no_registry (o : EvalOracles) (p : HybridPlanner)
    (scraped_page : Option ScrapedPage) (current_url : Option String)
    (actions : List Action) (hg : p.guards = []) (ha : p.affordances = []) :
    runFilter o p scraped_page current_url actions = (actions, [], []) := by
  induction actions with
  | nil => rfl
  | cons a rest ih =>
    simp only [runFilter, ih]
    have : processAction o p scraped_page current_url a = .acceptedNoAffordances := by
      simp [processAction, hg, ha, guardRejection]
    rw [this]

lemma validate_components (o : EvalOracles) (p : HybridPlanner)
    (actions : List Action) (scraped_page : Option ScrapedPage)
    (current_url : Option String) (hw : 0 < p.loop_detection_window) :
    (HybridPlanner.validate_and_filter_actions o p actions scraped_page current_url).1
        = { p with action_history :=
              truncatedHistory p (runFilter o p scraped_page current_url actions).1 } ∧
    (HybridPlanner.validate_and_filter_actions o p actions scraped_page
        current_url).2.filtered_actions
        = (runFilter o p scraped_page current_url actions).1 ∧
    (HybridPlanner.validate_and_filter_actions o p actions scraped_page
        current_url).2.rejected_actions
        = (runFilter o p scraped_page current_url actions).2.1 ∧
    (HybridPlanner.validate_and_filter_actions o p actions scraped_page
        current_url).2.warnings
        = (runFilter o p scraped_page current_url actions).2.2 ++
          (if 2 * p.loop_detection_window.toNat ≤
                (truncatedHistory p (runFilter o p scraped_page current_url actions).1).length ∧
              (truncatedHistory p (runFilter o p scraped_page current_url actions).1).drop
                  p.loop_detection_window.toNat
                = (truncatedHistory p (runFilter o p scraped_page current_url actions).1).take
                  p.loop_detection_window.toNat
           then [loopWarningMessage p.loop_detection_window] else []) := by
  have hd := detectLoops_spec p (runFilter o p scraped_page current_url actions).1 hw
  refine ⟨?_, rfl, rfl, ?_⟩
  · simp only [HybridPlanner.validate_and_filter_actions, hd]
  simp only [HybridPlanner.validate_and_filter_actions, hd]
  by_cases hc : 2 * p.loop_detection_window.toNat ≤
      (truncatedHistory p (runFilter o p scraped_page current_url actions).1).length ∧
      (truncatedHistory p (runFilter o p scraped_page current_url actions).1).drop
          p.loop_detection_window.toNat
        = (truncatedHistory p (runFilter o p scraped_page current_url actions).1).take
          p.loop_detection_window.toNat <;>
    simp [hc]

/-- A fresh planner whose loop-detection window is `n` and which has no
guards, affordances or history. -/
def freshLoopPlanner (n : Nat) : HybridPlanner :=
  { HybridPlanner.init with loop_detection_window := (n : Int) }

/-- C5: loop detection appends each accepted action's
(element-id-or-"global", action-type) pair to the history, truncates the
history to its last `2 × window` entries, and adds a warning — never touching
the accepted or rejected lists — exactly when the (truncated) history holds
`2 × window` entries whose recent window equals the window preceding it.
Replaying an identical window-length sequence on a fresh planner warns on the
second call, and any key difference suppresses the warning. -/
theorem loop_detection_rolling_window
    (o : EvalOracles) (scraped_page : Option ScrapedPage) (current_url : Option String) :
    (∀ (p : HybridPlanner) (actions : List Action), 0 < p.loop_detection_window →
      (HybridPlanner.validate_and_filter_actions o p actions scraped_page current_url).1
          = { p with action_history :=
                truncatedHistory p (runFilter o p scraped_page current_url actions).1 } ∧
      (HybridPlanner.validate_and_filter_actions o p actions scraped_page
          current_url).2.filtered_actions
          = (runFilter o p scraped_page current_url actions).1 ∧
      (HybridPlanner.validate_and_filter_actions o p actions scraped_page
          current_url).2.rejected_actions
          = (runFilter o p scraped_page current_url actions).2.1 ∧
      (HybridPlanner.validate_and_filter_actions o p actions scraped_page
          current_url).2.warnings
          = (runFilter o p scraped_page current_url actions).2.2 ++
            (if 2 * p.loop_detection_window.toNat ≤
                  (truncatedHistory p (runFilter o p scraped_page current_url actions).1).length ∧
                (truncatedHistory p (runFilter o p scraped_page current_url actions).1).drop
                    p.loop_detection_window.toNat
                  = (truncatedHistory p
                      (runFilter o p scraped_page current_url actions).1).take
                      p.loop_detection_window.toNat
             then [loopWarningMessage p.loop_detection_window] else [])) ∧
    (∀ acts1 acts2 : List Action, acts1 ≠ [] → acts2.length = acts1.length →
      (HybridPlanner.validate_and_filter_actions o (freshLoopPlanner acts1.length) acts1
          scraped_page current_url).2.warnings = [] ∧
      (HybridPlanner.validate_and_filter_actions o (freshLoopPlanner acts1.length) acts1
          scraped_page current_url).2.rejected_actions = [] ∧
      (HybridPlanner.validate_and_filter_actions o (freshLoopPlanner acts1.length) acts1
          scraped_page current_url).2.filtered_actions = acts1 ∧
      (HybridPlanner.validate_and_filter_actions o
          (HybridPlanner.validate_and_filter_actions o (freshLoopPlanner acts1.length) acts1
            scraped_page current_url).1 acts2 scraped_page
          current_url).2.rejected_actions = [] ∧
      (HybridPlanner.validate_and_filter_actions o
          (HybridPlanner.validate_and_filter_actions o (freshLoopPlanner acts1.length) acts1
            scraped_page current_url).1 acts2 scraped_page
          current_url).2.filtered_actions = acts2 ∧
      (acts2.map actionKey = acts1.map actionKey →
        (HybridPlanner.validate_and_filter_actions o
            (HybridPlanner.validate_and_filter_actions o (freshLoopPlanner acts1.length) acts1
              scraped_page current_url).1 acts2 scraped_page
            current_url).2.warnings
          = [loopWarningMessage (acts1.length : Int)]) ∧
      (acts2.map actionKey ≠ acts1.map actionKey →
        (HybridPlanner.validate_and_filter_actions o
            (HybridPlanner.validate_and_filter_actions o (freshLoopPlanner acts1.length) acts1
              scraped_page current_url).1 acts2 scraped_page
            current_url).2.warnings = [])) := by
  constructor
  · intro p actions hw
    exact validate_components o p actions scraped_page current_url hw
  · intro acts1 acts2 h1 hlen
    have hL : 0 < acts1.length := List.length_pos.mpr h1
    have hw1 : 0 < (freshLoopPlanner acts1.length).loop_detection_window := by
      show (0 : Int) < (acts1.length : Int)
      exact_mod_cast hL
    have htoNat : (freshLoopPlanner acts1.length).loop_detection_window.toNat
        = acts1.length := by
      show ((acts1.length : Int)).toNat = acts1.length
      omega
    have hrf1 := runFilter_no_registry o (freshLoopPlanner acts1.length) scraped_page
      current_url acts1 rfl rfl
    obtain ⟨hp1, hf1, hr1, hwn1⟩ :=
      validate_components o (freshLoopPlanner acts1.length) acts1 scraped_page current_url hw1
    have htr1 : truncatedHistory (freshLoopPlanner acts1.length)
        (runFilter o (freshLoopPlanner acts1.length) scraped_page current_url acts1).1
        = acts1.map actionKey := by
      rw [hrf1]
      show truncatedHistory (freshLoopPlanner acts1.length) acts1 = acts1.map actionKey
      unfold truncatedHistory
      rw [show (freshLoopPlanner acts1.length).action_history
          = ([] : List (String × ActionType)) from rfl, List.nil_append, htoNat]
      have hz : (acts1.map actionKey).length - 2 * acts1.length = 0 := by
        simp only [List.length_map]; omega
      rw [hz, List.drop_zero]
    have hcond1 : ¬(2 * (freshLoopPlanner acts1.length).loop_detection_window.toNat ≤
        (truncatedHistory (freshLoopPlanner acts1.length)
          (runFilter o (freshLoopPlanner acts1.length) scraped_page current_url
            acts1).1).length ∧
        (truncatedHistory (freshLoopPlanner acts1.length)
          (runFilter o (freshLoopPlanner acts1.length) scraped_page current_url
            acts1).1).drop (freshLoopPlanner acts1.length).loop_detection_window.toNat
          = (truncatedHistory (freshLoopPlanner acts1.length)
              (runFilter o (freshLoopPlanner acts1.length) scraped_page current_url
                acts1).1).take (freshLoopPlanner acts1.length).loop_detection_window.toNat) := by
      intro hcon
      have := hcon.1
      rw [htr1, htoNat] at this
      simp only [List.length_map] at this
      omega
    have hW1 : (HybridPlanner.validate_and_filter_actions o (freshLoopPlanner acts1.length)
        acts1 scraped_page current_url).2.warnings = [] := by
      rw [hwn1, if_neg hcond1, hrf1]
      rfl
    have hR1 : (HybridPlanner.validate_and_filter_actions o (freshLoopPlanner acts1.length)
        acts1 scraped_page current_url).2.rejected_actions = [] := by
      rw [hr1, hrf1]
    have hF1 : (HybridPlanner.validate_and_filter_actions o (freshLoopPlanner acts1.length)
        acts1 scraped_page current_url).2.filtered_actions = acts1 := by
      rw [hf1, hrf1]
    have hq1 : (HybridPlanner.validate_and_filter_actions o (freshLoopPlanner acts1.length)
        acts1 scraped_page current_url).1
        = { freshLoopPlanner acts1.length with action_history := acts1.map actionKey } := by
      rw [hp1, htr1]
    rw [hq1]
    refine ⟨hW1, hR1, hF1, ?_⟩
    have hw2 : 0 < ({ freshLoopPlanner acts1.length with
        action_history := acts1.map actionKey } : HybridPlanner).loop_detection_window := hw1
    have hrf2 := runFilter_no_registry o
      { freshLoopPlanner acts1.length with action_history := acts1.map actionKey }
      scraped_page current_url acts2 rfl rfl
    obtain ⟨hp2, hf2, hr2, hwn2⟩ := validate_components o
      { freshLoopPlanner acts1.length with action_history := acts1.map actionKey }
      acts2 scraped_page current_url hw2
    have hk1len : (acts1.map actionKey).length = acts1.length := List.length_map _ _
    have hk2len : (acts2.map actionKey).length = acts1.length := by
      rw [List.length_map, hlen]
    have htoNat2 : ({ freshLoopPlanner acts1.length with
        action_history := acts1.map actionKey } : HybridPlanner).loop_detection_window.toNat
        = acts1.length := htoNat
    have htr2 : truncatedHistory
        { freshLoopPlanner acts1.length with action_history := acts1.map actionKey }
        (runFilter o { freshLoopPlanner acts1.length with
          action_history := acts1.map actionKey } scraped_page current_url acts2).1
        = acts1.map actionKey ++ acts2.map actionKey := by
      rw [hrf2]
      show truncatedHistory
        { freshLoopPlanner acts1.length with action_history := acts1.map actionKey } acts2
        = acts1.map actionKey ++ acts2.map actionKey
      unfold truncatedHistory
      rw [show ({ freshLoopPlanner acts1.length with
          action_history := acts1.map actionKey } : HybridPlanner).action_history
          = acts1.map actionKey from rfl, htoNat2]
      have hz : (acts1.map actionKey ++ acts2.map actionKey).length - 2 * acts1.length = 0 := by
        rw [List.length_append, hk1len, hk2len]; omega
      rw [hz, List.drop_zero]
    have hdrop : (acts1.map actionKey ++ acts2.map actionKey).drop acts1.length
        = acts2.map actionKey := by
      rw [show acts1.length = (acts1.map actionKey).length from hk1len.symm, List.drop_left]
    have htake : (acts1.map actionKey ++ acts2.map actionKey).take acts1.length
        = acts1.map actionKey := by
      rw [show acts1.length = (acts1.map actionKey).length from hk1len.symm, List.take_left]
    have hR2 : (HybridPlanner.validate_and_filter_actions o
        { freshLoopPlanner acts1.length with action_history := acts1.map actionKey }
        acts2 scraped_page current_url).2.rejected_actions = [] := by
      rw [hr2, hrf2]
    have hF2 : (HybridPlanner.validate_and_filter_actions o
        { freshLoopPlanner acts1.length with action_history := acts1.map actionKey }
        acts2 scraped_page current_url).2.filtered_actions = acts2 := by
      rw [hf2, hrf2]
    refine ⟨hR2, hF2, ?_, ?_⟩
    · intro hkey
      have hcpos : 2 * acts1.length ≤ (acts1.map actionKey ++ acts2.map actionKey).length ∧
          (acts1.map actionKey ++ acts2.map actionKey).drop acts1.length
            = (acts1.map actionKey ++ acts2.map actionKey).take acts1.length := by
        constructor
        · rw [List.length_append, hk1len, hk2len]; omega
        · rw [hdrop, htake, hkey]
      rw [hwn2, htr2, htoNat2, if_pos hcpos, hrf2]
      rfl
    · intro hkey
      have hcneg : ¬(2 * acts1.length ≤ (acts1.map actionKey ++ acts2.map actionKey).length ∧
          (acts1.map actionKey ++ acts2.map actionKey).drop acts1.length
            = (acts1.map actionKey ++ acts2.map actionKey).take acts1.length) := by
        intro hcon
        rw [hdrop, htake] at hcon
        exact hkey hcon.2
      rw [hwn2, htr2, htoNat2, if_neg hcneg, hrf2]
      rfl

/-- C10: with a positive loop-detection window, every call to
`validate_and_filter_actions` leaves at most `2 × window` entries in the
planner's action history, and `clear()` empties the history. -/
theorem action_history_bounded
    (o : EvalOracles) (p : HybridPlanner) (actions : List Action)
    (scraped_page : Option ScrapedPage) (current_url : Option String)
    (hw : 0 < p.loop_detection_window) :
    (HybridPlanner.validate_and_filter_actions o p actions scraped_page
        current_url).1.action_history.length ≤ 2 * p.loop_detection_window.toNat ∧
    (HybridPlanner.clear p).action_history = [] := by
  constructor
  · have hp := (validate_components o p actions scraped_page current_url hw).1
    rw [hp]
    show (truncatedHistory p _).length ≤ _
    rw [truncatedHistory, List.length_drop]
    omega
  · rfl

/-- A two-action sequence used to exercise loop detection concretely. -/
def c5Acts : List Action := [⟨.click, some "a"⟩, ⟨.click, some "b"⟩]

/-- Witness for C5: replaying `c5Acts` twice on a fresh planner with window 2
produces exactly the loop warning on the second call. -/
theorem loop_detection_rolling_window_witness :
    (HybridPlanner.validate_and_filter_actions oracleFalse
        (HybridPlanner.validate_and_filter_actions oracleFalse
          (freshLoopPlanner c5Acts.length) c5Acts none none).1
        c5Acts none none).2.warnings
      = [loopWarningMessage (c5Acts.length : Int)] := by
  have h := (loop_detection_rolling_window oracleFalse none none).2 c5Acts c5Acts
    (by decide) rfl
  exact h.2.2.2.2.2.1 rfl

/-- Witness for C10: a concrete validation call with window 2 keeps the
history within four entries, and `clear` empties it. -/
theorem action_history_bounded_witness :
    (HybridPlanner.validate_and_filter_actions oracleFalse (freshLoopPlanner 2) c5Acts
        none none).1.action_history.length ≤ 2 * (freshLoopPlanner 2).loop_detection_window.toNat ∧
    (HybridPlanner.clear (freshLoopPlanner 2)).action_history = [] :=
  action_history_bounded oracleFalse (freshLoopPlanner 2) c5Acts none none (by decide)

/-! ### Message bus and swarm agents
(`agent_message_bus.py`, `agent_messages.py`, `multi_agent_swarm.py`) -/

/-- Embeds `AgentRole` of `agent_messages.py`. -/
inductive AgentRole where
  | planner
  | executor
  | validator
  | coordinator
  deriving DecidableEq, Repr

/-- Embeds `MessageType` of `agent_messages.py`. -/
inductive MessageType where
  | thought
  | plan
  | action_proposal
  | action_approval
  | action_rejection
  | execution_result
  | validation_request
  | validation_result
  | critique
  | consensus_request
  | consensus_response
  | error
  | status_update
  deriving DecidableEq, Repr

/-- Embeds `ActionProposalMessage` of `agent_messages.py` (the `action_data` and
`fallback_actions` payload dictionaries are opaque to the validator and not
modelled; `confidence` is a rational standing for the Python float). -/
structure ActionProposalMessage where
  action_type : String
  rationale : String
  risk_assessment : String
  confidence : ℚ
  deriving DecidableEq, Repr

/-- Embeds `ActionApprovalMessage` of `agent_messages.py` (`modifications` is a
string-valued map; the validator always sends it empty). -/
structure ActionApprovalMessage where
  approved : Bool
  approver_reasoning : String
  modifications : List (String × String)
  conditions : List String
  deriving DecidableEq, Repr

/-- The payload dictionary of an envelope, as a tagged union of the content
shapes the modelled operations inspect; every other payload is `raw`. -/
inductive MessageContent where
  | actionProposal (proposal : ActionProposalMessage)
  | actionApproval (approval : ActionApprovalMessage)
  | raw (tag : String)
  deriving DecidableEq, Repr

/-- Embeds `AgentMessage` of `agent_messages.py` (`timestamp` is an epoch integer
standing for the Python datetime). -/
structure AgentMessage where
  message_id : String
  timestamp : Int
  sender_role : AgentRole
  sender_id : String
  recipient_role : Option AgentRole
  recipient_id : Option String
  message_type : MessageType
  content : MessageContent
  task_id : Option String
  step_id : Option String
  priority : Int
  requires_response : Bool
  in_response_to : Option String
  deriving DecidableEq, Repr

/-- Embeds `MessageFilter` of `agent_messages.py`. -/
structure MessageFilter where
  sender_role : Option AgentRole := none
  recipient_role : Option AgentRole := none
  message_type : Option MessageType := none
  task_id : Option String := none
  step_id : Option String := none
  from_timestamp : Option Int := none
  to_timestamp : Option Int := none
  min_priority : Option Int := none
  deriving DecidableEq, Repr

/-- Append a queue id under a key of a subscriber index table
(`defaultdict(list)`: a missing key starts with the empty list). -/
def addToTable {κ : Type} [DecidableEq κ] (table : List (κ × List Nat)) (key : κ)
    (q : Nat) : List (κ × List Nat) :=
  match table with
  | [] => [(key, [q])]
  | (k, qs) :: rest =>
    if k = key then (k, qs ++ [q]) :: rest else (k, qs) :: addToTable rest key q

/-- Embeds `table.get(key, [])`. -/
def tableLookup {κ : Type} [DecidableEq κ] (table : List (κ × List Nat)) (key : κ) :
    List Nat :=
  match table with
  | [] => []
  | (k, qs) :: rest => if k = key then qs else tableLookup rest key

/-- Remove the first occurrence of a queue from every entry of a table
(`if queue in queues: queues.remove(queue)`). -/
def removeFromTable {κ : Type} (table : List (κ × List Nat)) (q : Nat) :
    List (κ × List Nat) :=
  table.map fun kv => (kv.1, kv.2.erase q)

/-- Total number of queue registrations held by a table. -/
def tableCount {κ : Type} (table : List (κ × List Nat)) : Nat :=
  (table.map fun kv => kv.2.length).sum

/-- The `AgentMessageBus` state: bounded history, five subscriber index
tables, the subscriber queues themselves (id ↦ received messages, standing for
the Python queue objects), and the statistics counters. The synchronous
message-handler callbacks are side-effecting functions outside the modelled
state (their exceptions are swallowed by `publish`). -/
structure BusState where
  max_history_size : Nat
  message_history : List AgentMessage
  subscribers : List (String × List Nat)
  role_subscribers : List (AgentRole × List Nat)
  message_type_subscribers : List (MessageType × List Nat)
  task_subscribers : List (String × List Nat)
  broadcast_subscribers : List Nat
  queues : List (Nat × List AgentMessage)
  next_queue_id : Nat
  messages_sent : Nat
  subscribers_count : Nat
  deriving DecidableEq, Repr

/-- Embeds `AgentMessageBus.__init__(max_history_size)`. -/
def mkBus (max_history_size : Nat) : BusState :=
  { max_history_size := max_history_size, message_history := [], subscribers := [],
    role_subscribers := [], message_type_subscribers := [], task_subscribers := [],
    broadcast_subscribers := [], queues := [], next_queue_id := 0,
    messages_sent := 0, subscribers_count := 0 }

/-- Embeds `AgentMessageBus._count_subscribers`. -/
def BusState.countSubscribers (b : BusState) : Nat :=
  b.broadcast_subscribers.length + tableCount b.subscribers +
    tableCount b.role_subscribers + tableCount b.message_type_subscribers +
    tableCount b.task_subscribers

/-- The delivery set computed by `publish`: broadcast subscribers, plus the
queues keyed by recipient id, recipient role, message type and task id, as a
set (a queue receives the envelope at most once — `set()` de-duplicates). -/
def BusState.deliveryTargets (b : BusState) (m : AgentMessage) : List Nat :=
  (b.broadcast_subscribers
    ++ (match m.recipient_id with
        | some rid => if rid = "" then [] else tableLookup b.subscribers rid
        | none => [])
    ++ (match m.recipient_role with
        | some r => tableLookup b.role_subscribers r
        | none => [])
    ++ tableLookup b.message_type_subscribers m.message_type
    ++ (match m.task_id with
        | some t => if t = "" then [] else tableLookup b.task_subscribers t
        | none => [])).dedup

/-- Embeds `AgentMessageBus.publish`: append to history and pop the oldest entry when
the capacity is exceeded, bump the sent counter, and enqueue the envelope on
every queue of the delivery set. -/
def BusState.publish (b : BusState) (m : AgentMessage) : BusState :=
  let hist := b.message_history ++ [m]
  let hist := if hist.length > b.max_history_size then hist.drop 1 else hist
  let targets := b.deliveryTargets m
  { b with message_history := hist,
           messages_sent := b.messages_sent + 1,
           queues := b.queues.map fun kv =>
             if kv.1 ∈ targets then (kv.1, kv.2 ++ [m]) else kv }

/-- Embeds `AgentMessageBus.subscribe`: allocate one fresh queue and register it
under every supplied dimension (or only as broadcast), then refresh the
subscriber counter. Python truthiness makes an empty-string `agent_id` or
`task_id` behave as unsupplied. -/
def BusState.subscribe (b : BusState) (agent_id : Option String)
    (role : Option AgentRole) (message_type : Option MessageType)
    (task_id : Option String) (broadcast : Bool) : Nat × BusState :=
  let q := b.next_queue_id
  let b1 := { b with next_queue_id := q + 1, queues := b.queues ++ [(q, [])] }
  let b2 :=
    if broadcast then
      { b1 with broadcast_subscribers := b1.broadcast_subscribers ++ [q] }
    else
      let bA := match agent_id with
        | some aid =>
          if aid = "" then b1
          else { b1 with subscribers := addToTable b1.subscribers aid q }
        | none => b1
      let bB := match role with
        | some r => { bA with role_subscribers := addToTable bA.role_subscribers r q }
        | none => bA
      let bC := match message_type with
        | some mt =>
          { bB with message_type_subscribers := addToTable bB.message_type_subscribers mt q }
        | none => bB
      match task_id with
      | some t =>
        if t = "" then bC
        else { bC with task_subscribers := addToTable bC.task_subscribers t q }
      | none => bC
  (q, { b2 with subscribers_count := b2.countSubscribers })

/-- Embeds `AgentMessageBus.unsubscribe`: remove the queue from every index table and
refresh the subscriber counter; idempotent if already removed. -/
def BusState.unsubscribe (b : BusState) (q : Nat) : BusState :=
  let b1 := { b with
    broadcast_subscribers := b.broadcast_subscribers.erase q,
    subscribers := removeFromTable b.subscribers q,
    role_subscribers := removeFromTable b.role_subscribers q,
    message_type_subscribers := removeFromTable b.message_type_subscribers q,
    task_subscribers := removeFromTable b.task_subscribers q }
  { b1 with subscribers_count := b1.countSubscribers }

/-- The per-message test of `get_message_history(filter)`: unsupplied filter
fields are wildcards (Python truthiness: an empty-string task or step id is
also a wildcard; `min_priority` is checked against `None` explicitly). -/
def matchesFilter (f : MessageFilter) (m : AgentMessage) : Bool :=
  (match f.sender_role with | some r => m.sender_role == r | none => true) &&
  (match f.recipient_role with | some r => m.recipient_role == some r | none => true) &&
  (match f.message_type with | some t => m.message_type == t | none => true) &&
  (if pyTruthyStr f.task_id then m.task_id == f.task_id else true) &&
  (if pyTruthyStr f.step_id then m.step_id == f.step_id else true) &&
  (match f.from_timestamp with | some ts => !(m.timestamp < ts) | none => true) &&
  (match f.to_timestamp with | some ts => !(ts < m.timestamp) | none => true) &&
  (match f.min_priority with | some mp => !(m.priority < mp) | none => true)

/-- Embeds `AgentMessageBus.get_message_history(filter=None)`: a copy of the history,
optionally narrowed by the filter. Its single keyword parameter is `filter`. -/
def BusState.get_message_history (b : BusState) (f : Option MessageFilter) :
    List AgentMessage :=
  match f with
  | none => b.message_history
  | some f => b.message_history.filter (matchesFilter f)

/-- Embeds `AgentMessageBus.clear_history`. -/
def BusState.clear_history (b : BusState) : BusState :=
  { b with message_history := [] }

/-- A sequence of `publish` calls. -/
def publishAll (b : BusState) (msgs : List AgentMessage) : BusState :=
  msgs.foldl BusState.publish b

/-- Embeds `BaseAgent` of `multi_agent_swarm.py`: id, role, bound task/step ids, the
active flag, and the queue held while subscribed (`_message_queue`). -/
structure BaseAgent where
  agent_id : String
  role : AgentRole
  task_id : Option String
  step_id : Option String
  active : Bool
  message_queue : Option Nat
  deriving DecidableEq, Repr

/-- Embeds `BaseAgent.__init__`. -/
def mkAgent (agent_id : String) (role : AgentRole) (task_id step_id : Option String) :
    BaseAgent :=
  { agent_id := agent_id, role := role, task_id := task_id, step_id := step_id,
    active := false, message_queue := none }

/-- Embeds `BaseAgent.start`: sets `active` and unconditionally subscribes a fresh
queue under (agent id, role, task id), overwriting `_message_queue`. -/
def BaseAgent.start (a : BaseAgent) (bus : BusState) : BaseAgent × BusState :=
  let r := bus.subscribe (some a.agent_id) (some a.role) none a.task_id false
  ({ a with active := true, message_queue := some r.1 }, r.2)

/-- Embeds `BaseAgent.stop`: clears `active` and unsubscribes the held queue, if any
(`_message_queue` itself is not cleared). -/
def BaseAgent.stop (a : BaseAgent) (bus : BusState) : BaseAgent × BusState :=
  let bus' :=
    match a.message_queue with
    | some q => bus.unsubscribe q
    | none => bus
  ({ a with active := false }, bus')

/-- Whether a queue id is registered anywhere on the bus. -/
def BusState.queueRegistered (b : BusState) (q : Nat) : Bool :=
  decide (q ∈ b.broadcast_subscribers) ||
  b.subscribers.any (fun kv => decide (q ∈ kv.2)) ||
  b.role_subscribers.any (fun kv => decide (q ∈ kv.2)) ||
  b.message_type_subscribers.any (fun kv => decide (q ∈ kv.2)) ||
  b.task_subscribers.any (fun kv => decide (q ∈ kv.2))

/-- The fixed high-risk denylist of `ValidatorAgent._is_high_risk_action`. -/
def high_risk_actions : List String := ["terminate", "complete"]

/-- Embeds `ValidatorAgent` state: its base agent and the auto-approval
configuration from `__init__` (`_approval_mode = "auto"`,
`_auto_approve_threshold = 0.8`). -/
structure ValidatorAgent where
  base : BaseAgent
  approval_mode : String
  auto_approve_threshold : ℚ
  deriving DecidableEq, Repr

/-- Embeds `ValidatorAgent.__init__`: role VALIDATOR, threshold 0.8. -/
def mkValidatorAgent (agent_id : String) (task_id step_id : Option String) :
    ValidatorAgent :=
  { base := mkAgent agent_id .validator task_id step_id,
    approval_mode := "auto", auto_approve_threshold := 4/5 }

/-- Embeds `ValidatorAgent._is_high_risk_action`: the lower-cased action type is in
the denylist, or the proposal's own risk assessment is "high". -/
def ValidatorAgent.is_high_risk_action (proposal : ActionProposalMessage) : Bool :=
  decide (proposal.action_type.toLower ∈ high_risk_actions) ||
    proposal.risk_assessment == "high"

/-- The `ActionApprovalMessage` built inside `validate_action`. -/
def validatorApprovalMessage (proposal : ActionProposalMessage)
    (approved is_high_risk : Bool) : ActionApprovalMessage :=
  { approved := approved,
    approver_reasoning := "Action " ++ (if approved then "approved" else "rejected")
      ++ " based on confidence " ++ toString proposal.confidence
      ++ " and risk assessment",
    modifications := [],
    conditions := if is_high_risk then ["Monitor for unexpected page changes"] else [] }

/-- The envelope `validate_action` publishes through `send_message`: stamped
with the validator's role/id and bound task/step, typed ACTION_APPROVAL or
ACTION_REJECTION, priority 9, correlated to the proposal message. -/
def validatorResponseEnvelope (v : ValidatorAgent) (newId : String) (now : Int)
    (action_proposal : AgentMessage) (approved : Bool)
    (approval_message : ActionApprovalMessage) : AgentMessage :=
  { message_id := newId, timestamp := now,
    sender_role := v.base.role, sender_id := v.base.agent_id,
    recipient_role := none, recipient_id := none,
    message_type := if approved then .action_approval else .action_rejection,
    content := .actionApproval approval_message,
    task_id := v.base.task_id, step_id := v.base.step_id,
    priority := 9, requires_response := false,
    in_response_to := some action_proposal.message_id }

/-- Embeds `ValidatorAgent.validate_action`: deserializes the proposal (a
non-proposal payload raises in Python, modelled as `none`), approves iff the
confidence reaches the threshold and the action is not high-risk, publishes an
ACTION_APPROVAL or ACTION_REJECTION correlated to the proposal (via
`send_message`, with the fresh uuid and current time passed as `newId`/`now`),
and returns `(approved, modifications)`; the result also carries the published
envelope and the new bus state. -/
def ValidatorAgent.validate_action (v : ValidatorAgent) (newId : String) (now : Int)
    (bus : BusState) (action_proposal : AgentMessage) :
    Option (BusState × AgentMessage × Bool × List (String × String)) :=
  match action_proposal.content with
  | .actionProposal proposal =>
    let is_high_risk := ValidatorAgent.is_high_risk_action proposal
    let approved := decide (v.auto_approve_threshold ≤ proposal.confidence) && !is_high_risk
    let approval_message := validatorApprovalMessage proposal approved is_high_risk
    let sent := validatorResponseEnvelope v newId now action_proposal approved approval_message
    some (bus.publish sent, sent, approved, approval_message.modifications)
  | _ => none

/-- A keyword argument passed to `AgentMessageBus.get_message_history`. The
method's signature declares the single keyword parameter `filter`; calling it
with any other keyword — the coordinator passes `task_id` — raises
`TypeError` in Python, embedded as the `.error` branch. -/
inductive HistoryKwarg where
  | filterArg (f : Option MessageFilter)
  | taskIdArg (t : String)

/-- A Python keyword call `bus.get_message_history(<kwarg>)`. -/
def callGetMessageHistory (b : BusState) (kw : HistoryKwarg) :
    Except String (List AgentMessage) :=
  match kw with
  | .filterArg f => .ok (b.get_message_history f)
  | .taskIdArg _ =>
    .error ("TypeError: get_message_history() got an unexpected keyword argument "
      ++ sq ++ "task_id" ++ sq)

/-- The fields of `AgentSwarmCoordinator` its `get_message_history` method
reads (`self.task.task_id` and the shared bus). -/
structure AgentSwarmCoordinator where
  task_id : String
  enable_swarm : Bool
  deriving DecidableEq, Repr

/-- Embeds `AgentSwarmCoordinator.get_message_history`: calls
`self.message_bus.get_message_history(task_id=self.task.task_id)`. -/
def AgentSwarmCoordinator.get_message_history (c : AgentSwarmCoordinator)
    (bus : BusState) : Except String (List AgentMessage) :=
  callGetMessageHistory bus (.taskIdArg c.task_id)

/-! ### Theorems about the bus and the agents -/

lemma publish_max (b : BusState) (m : AgentMessage) :
    (b.publish m).max_history_size = b.max_history_size := rfl

lemma publish_history_eq (b : BusState) (m : AgentMessage) :
    (b.publish m).message_history =
      if (b.message_history ++ [m]).length > b.max_history_size
      then (b.message_history ++ [m]).drop 1
      else b.message_history ++ [m] := rfl

lemma publishAll_history (N : Nat) (msgs : List AgentMessage) (b : BusState)
    (hmax : b.max_history_size = N) (hlen : b.message_history.length ≤ N) :
    (publishAll b msgs).message_history
      = (b.message_history ++ msgs).drop (b.message_history.length + msgs.length - N) := by
  induction msgs generalizing b with
  | nil =>
    simp only [publishAll, List.foldl_nil, List.append_nil, List.length_nil, Nat.add_zero]
    have h0 : b.message_history.length - N = 0 := by omega
    rw [h0, List.drop_zero]
  | cons m rest ih =>
    have hfold : publishAll b (m :: rest) = publishAll (b.publish m) rest := rfl
    rw [hfold]
    by_cases hov : (b.message_history ++ [m]).length > b.max_history_size
    · have hN : b.message_history.length = N := by
        rw [List.length_append, List.length_singleton] at hov
        omega
      have hh : (b.publish m).message_history = (b.message_history ++ [m]).drop 1 := by
        rw [publish_history_eq, if_pos hov]
      have hdlen : ((b.message_history ++ [m]).drop 1).length = N := by
        rw [List.length_drop, List.length_append, List.length_singleton]
        omega
      have hlen' : (b.publish m).message_history.length ≤ N := by
        rw [hh, hdlen]
      have hrec := ih (b.publish m) (by rw [publish_max, hmax]) hlen'
      rw [hrec, hh, hdlen]
      have hone : 1 ≤ (b.message_history ++ [m]).length := by
        rw [List.length_append, List.length_singleton]; omega
      rw [← List.drop_append_of_le_length hone, List.drop_drop]
      have harith : 1 + (N + rest.length - N) = b.message_history.length + (m :: rest).length - N := by
        simp only [List.length_cons]; omega
      rw [harith, List.append_assoc, List.singleton_append]
    · have hh : (b.publish m).message_history = b.message_history ++ [m] := by
        rw [publish_history_eq, if_neg hov]
      have hov' : b.message_history.length + 1 ≤ N := by
        rw [List.length_append, List.length_singleton] at hov
        omega
      have hlen' : (b.publish m).message_history.length ≤ N := by
        rw [hh, List.length_append, List.length_singleton]; omega
      have hrec := ih (b.publish m) (by rw [publish_max, hmax]) hlen'
      rw [hrec, hh, List.append_assoc, List.singleton_append]
      congr 1
      rw [List.length_append, List.length_singleton, List.length_cons]
      omega

/-- C4: the message history is a ring buffer. Publishing any sequence of
messages on a fresh bus of capacity `N` leaves a history of length
`min (messages published) N` holding exactly the last `min (messages
published) N` messages in publish order. -/
theorem message_history_ring_buffer (N : Nat) (msgs : List AgentMessage) :
    ((publishAll (mkBus N) msgs).get_message_history none).length = min msgs.length N ∧
    (publishAll (mkBus N) msgs).get_message_history none = msgs.drop (msgs.length - N) := by
  have h := publishAll_history N msgs (mkBus N) rfl (by simp [mkBus])
  have h2 : (publishAll (mkBus N) msgs).get_message_history none
      = msgs.drop (msgs.length - N) := by
    show (publishAll (mkBus N) msgs).message_history = msgs.drop (msgs.length - N)
    simpa [mkBus] using h
  refine ⟨?_, h2⟩
  rw [h2, List.length_drop]
  omega

/-- C9: code evaluation at the failing call.
`AgentSwarmCoordinator.get_message_history` passes the keyword `task_id` to
`AgentMessageBus.get_message_history`, whose only keyword parameter is
`filter`, so every call errors (Python raises `TypeError`) for every bus
state; the bus method itself, called with its declared parameter, returns the
ordered history. -/
theorem coordinator_get_message_history_always_raises
    (c : AgentSwarmCoordinator) (bus : BusState) :
    c.get_message_history bus
        = .error ("TypeError: get_message_history() got an unexpected keyword argument "
            ++ sq ++ "task_id" ++ sq) ∧
    callGetMessageHistory bus (.filterArg none) = .ok bus.message_history :=
  ⟨rfl, rfl⟩

lemma removeFromTable_of_not_registered {κ : Type} (t : List (κ × List Nat)) (q : Nat)
    (h : ∀ kv ∈ t, q ∉ kv.2) : removeFromTable t q = t := by
  induction t with
  | nil => rfl
  | cons kv rest ih =>
    simp only [removeFromTable, List.map_cons]
    rw [List.erase_of_not_mem (h kv (by simp))]
    rw [show List.map (fun kv => (kv.1, kv.2.erase q)) rest = removeFromTable rest q from rfl]
    rw [ih fun x hx => h x (by simp [hx])]

lemma subscribe_queues (b : BusState) (aid : Option String) (role : Option AgentRole)
    (mt : Option MessageType) (tid : Option String) (bc : Bool) :
    ((b.subscribe aid role mt tid bc).2).queues = b.queues ++ [(b.next_queue_id, [])] := by
  unfold BusState.subscribe
  cases bc <;> cases aid <;> cases role <;> cases mt <;> cases tid <;>
    simp [apply_ite BusState.queues]

/-- C7 counterexample: starting an already-started (hence active) agent is not
a no-op — the claim fails at this concrete input, because `BaseAgent.start`
subscribes unconditionally and registers a second queue. -/
theorem agent_start_twice_not_noop :
    ((mkAgent "agent-1" .planner (some "t1") none).start (mkBus 1000)).1.start
        ((mkAgent "agent-1" .planner (some "t1") none).start (mkBus 1000)).2
      ≠ (((mkAgent "agent-1" .planner (some "t1") none).start (mkBus 1000)).1,
          ((mkAgent "agent-1" .planner (some "t1") none).start (mkBus 1000)).2) := by
  decide

/-- C7 amended: `stop()` on an inactive agent whose held queue (if any) is no
longer registered, on a bus with a consistent subscriber counter, is a no-op
on both the agent and the bus; `start()` on an already-active agent is not a
no-op — it registers one additional queue, changing the bus. -/
theorem agent_lifecycle_idempotence_amended (a : BaseAgent) (bus : BusState) :
    (a.active = false →
      (∀ q, a.message_queue = some q → bus.queueRegistered q = false) →
      bus.subscribers_count = bus.countSubscribers →
      a.stop bus = (a, bus)) ∧
    (a.active = true →
      (a.start bus).2.queues.length = bus.queues.length + 1 ∧ (a.start bus).2 ≠ bus) := by
  constructor
  · intro ha hq hstats
    obtain ⟨aid, arole, atid, asid, aactive, amq⟩ := a
    simp only at ha hq
    subst ha
    cases amq with
    | none => rfl
    | some q =>
      have hreg := hq q rfl
      simp only [BusState.queueRegistered, Bool.or_eq_false_iff,
        List.any_eq_false, decide_eq_false_iff_not, decide_eq_true_eq] at hreg
      obtain ⟨⟨⟨⟨h1, h2⟩, h3⟩, h4⟩, h5⟩ := hreg
      have hsub : bus.unsubscribe q = { bus with subscribers_count := bus.countSubscribers } := by
        unfold BusState.unsubscribe
        rw [List.erase_of_not_mem h1,
          removeFromTable_of_not_registered _ _ h2,
          removeFromTable_of_not_registered _ _ h3,
          removeFromTable_of_not_registered _ _ h4,
          removeFromTable_of_not_registered _ _ h5]
      show (_, bus.unsubscribe q) = _
      rw [hsub, ← hstats]
  · intro _
    have hqs : (a.start bus).2.queues.length = bus.queues.length + 1 := by
      show ((bus.subscribe (some a.agent_id) (some a.role) none a.task_id false).2).queues.length = _
      rw [subscribe_queues, List.length_append, List.length_singleton]
    refine ⟨hqs, ?_⟩
    intro heq
    have hc := congrArg (fun s : BusState => s.queues.length) heq
    simp only at hc
    rw [hqs] at hc
    omega

/-- A started agent (active, holding queue 0) on a fresh bus. -/
def c7ActiveAgent : BaseAgent :=
  { mkAgent "agent-1" .planner (some "t1") none with active := true, message_queue := some 0 }

/-- Witness for the amended C7: a concrete inactive agent's stop is a no-op,
and a concrete active agent's start adds a queue and changes the bus. -/
theorem agent_lifecycle_idempotence_amended_witness :
    ((mkAgent "agent-2" .executor none none).stop (mkBus 1000)
        = (mkAgent "agent-2" .executor none none, mkBus 1000)) ∧
    ((c7ActiveAgent.start (mkBus 1000)).2.queues.length = (mkBus 1000).queues.length + 1 ∧
      (c7ActiveAgent.start (mkBus 1000)).2 ≠ mkBus 1000) :=
  ⟨(agent_lifecycle_idempotence_amended (mkAgent "agent-2" .executor none none)
      (mkBus 1000)).1 rfl (fun _ h => nomatch h) rfl,
   (agent_lifecycle_idempotence_amended c7ActiveAgent (mkBus 1000)).2 rfl⟩

/-- C6: the validator approves an action proposal iff its confidence reaches
the 0.8 auto-approve threshold and the action is not high-risk (lower-cased
action type in {terminate, complete}, or risk assessment "high"); it publishes
ACTION_APPROVAL when approved and ACTION_REJECTION otherwise, correlated to
the proposal's message id, and returns the pair of the approval flag and the
(empty) modifications map. -/
theorem validator_validate_action_spec
    (agent_id : String) (task_id step_id : Option String)
    (bus : BusState) (msg : AgentMessage) (proposal : ActionProposalMessage)
    (newId : String) (now : Int)
    (hcontent : msg.content = .actionProposal proposal) :
    ∃ (sent : AgentMessage) (approved : Bool),
      (mkValidatorAgent agent_id task_id step_id).validate_action newId now bus msg
        = some (bus.publish sent, sent, approved, []) ∧
      (approved = true ↔ ((4/5 : ℚ) ≤ proposal.confidence ∧
          ¬(proposal.action_type.toLower = "terminate" ∨
            proposal.action_type.toLower = "complete" ∨
            proposal.risk_assessment = "high"))) ∧
      sent.message_type
        = (if approved then MessageType.action_approval else MessageType.action_rejection) ∧
      sent.in_response_to = some msg.message_id := by
  refine ⟨validatorResponseEnvelope (mkValidatorAgent agent_id task_id step_id) newId now msg
      (decide ((mkValidatorAgent agent_id task_id step_id).auto_approve_threshold
          ≤ proposal.confidence) && !(ValidatorAgent.is_high_risk_action proposal))
      (validatorApprovalMessage proposal
        (decide ((mkValidatorAgent agent_id task_id step_id).auto_approve_threshold
            ≤ proposal.confidence) && !(ValidatorAgent.is_high_risk_action proposal))
        (ValidatorAgent.is_high_risk_action proposal)),
    decide ((mkValidatorAgent agent_id task_id step_id).auto_approve_threshold
        ≤ proposal.confidence) && !(ValidatorAgent.is_high_risk_action proposal),
    ?_, ?_, ?_, ?_⟩
  · simp only [ValidatorAgent.validate_action, hcontent]
    rfl
  · simp only [mkValidatorAgent, ValidatorAgent.is_high_risk_action, high_risk_actions,
      Bool.and_eq_true, decide_eq_true_eq, Bool.not_eq_true', Bool.or_eq_false_iff,
      decide_eq_false_iff_not, List.mem_cons, List.mem_singleton, beq_eq_false_iff_ne,
      ne_eq, not_or, List.not_mem_nil, or_false]
    tauto
  · rfl
  · rfl

/-- The spec's approval scenario: a click proposal with confidence 0.9 and
risk assessment "low". -/
def c6Proposal : ActionProposalMessage :=
  { action_type := "click", rationale := "Executing action 0 as part of the plan",
    risk_assessment := "low", confidence := 9/10 }

/-- The proposal envelope carrying `c6Proposal`. -/
def c6Message : AgentMessage :=
  { message_id := "m1", timestamp := 0, sender_role := .executor, sender_id := "executor-t1",
    recipient_role := some .validator, recipient_id := none,
    message_type := .action_proposal, content := .actionProposal c6Proposal,
    task_id := some "t1", step_id := none, priority := 8, requires_response := true,
    in_response_to := none }

/-- Witness for C6: the theorem applied to the concrete 0.9-confidence,
low-risk click proposal. -/
theorem validator_validate_action_spec_witness :
    ∃ (sent : AgentMessage) (approved : Bool),
      (mkValidatorAgent "validator-t1" (some "t1") none).validate_action "m2" 0
          (mkBus 1000) c6Message
        = some ((mkBus 1000).publish sent, sent, approved, []) ∧
      (approved = true ↔ ((4/5 : ℚ) ≤ c6Proposal.confidence ∧
          ¬(c6Proposal.action_type.toLower = "terminate" ∨
            c6Proposal.action_type.toLower = "complete" ∨
            c6Proposal.risk_assessment = "high"))) ∧
      sent.message_type
        = (if approved then MessageType.action_approval else MessageType.action_rejection) ∧
      sent.in_response_to = some c6Message.message_id :=
  validator_validate_action_spec "validator-t1" (some "t1") none (mkBus 1000)
    c6Message c6Proposal "m2" 0 rfl

end Skyvern
